import Mathlib

/-!
# Verification of the HTTP/2 proxy core (`libmproxy/protocol/http2.py`)

A shallow embedding of the HTTP/2 frame pump and per-stream bridging engine
of `src/libmproxy/protocol/http2.py`, together with theorems checking the
natural-language specification against the code.

Modelling conventions:

* Byte strings (frame payloads, header-block fragments, the connection
  preface) are Lean `String`s; the source is Python 2, where `str` is a
  byte string.
* Reading from a transport (`rfile`) is modelled by explicit input:
  a `List Char` of pending bytes for `preface`, a `List Frame` of pending
  frames for the frame-reading loops.  A function returns the unread
  remainder of its input.
* Writing is modelled by returning the list of emitted events (frames or
  `send_headers`/`send_data` calls) instead of mutating a socket.
* Python exceptions become the `PyError` sum; a raise before any write
  yields `Except.error` with no emitted events, matching the fact that the
  source raises before reaching its write calls.
* The HPACK decoder is an external collaborator with opaque state; it is a
  parameter `decode : String → List (String × String)` wherever the code
  calls `self.decoder.decode`.
* `netlib`'s `Headers` container is modelled as an ordered association
  list `List (String × String)`; `headers[k]` (which raises `KeyError`
  when the name is absent) is `hlookup`, returning the first value bound
  to the name.  The pseudo-header names looked up by the code are fixed
  lower-case strings, so `Headers`' case-insensitivity is immaterial.
-/

set_option autoImplicit false

namespace Http2Proxy

/-- The Python exceptions the embedded code can raise.
`http2Exception` is `libmproxy.exceptions.Http2Exception`;
`notImplementedError` is Python's `NotImplementedError`;
`valueError` is Python's `ValueError` (raised by `int()` on a
non-numeric string); `keyError` is Python's `KeyError`;
`transportClosed` models `Frame.from_file` failing on an exhausted
transport. -/
inductive PyError where
  | http2Exception (msg : String)
  | notImplementedError (msg : String)
  | valueError (msg : String)
  | keyError (key : String)
  | transportClosed
deriving Repr, DecidableEq

/-- HTTP/2 frames, restricted to the kinds the dispatch loop consumes
(`netlib.http.http2.Frame` subclasses: `HeadersFrame`, `ContinuationFrame`,
`DataFrame`, `SettingsFrame`, `WindowUpdateFrame`).  `flags` is the frame
header's flag bitset; `settings` is the (identifier, value) list of a
SETTINGS frame's payload. -/
inductive Frame where
  | headersF (stream_id : Nat) (flags : Nat) (header_block_fragment : String)
  | continuationF (stream_id : Nat) (flags : Nat) (header_block_fragment : String)
  | dataF (stream_id : Nat) (flags : Nat) (payload : String)
  | settingsF (stream_id : Nat) (flags : Nat) (settings : List (Nat × Nat))
  | windowUpdateF (stream_id : Nat) (flags : Nat) (window_size_increment : Nat)
deriving Repr, DecidableEq, Inhabited

namespace Frame

/-- `netlib.http.http2.Frame.FLAG_ACK` (0x1). -/
def FLAG_ACK : Nat := 1
/-- `netlib.http.http2.Frame.FLAG_END_STREAM` (0x1). -/
def FLAG_END_STREAM : Nat := 1
/-- `netlib.http.http2.Frame.FLAG_END_HEADERS` (0x4). -/
def FLAG_END_HEADERS : Nat := 4

/-- The `stream_id` field of the frame header. -/
def stream_id : Frame → Nat
  | .headersF sid _ _ => sid
  | .continuationF sid _ _ => sid
  | .dataF sid _ _ => sid
  | .settingsF sid _ _ => sid
  | .windowUpdateF sid _ _ => sid

/-- The `flags` field of the frame header. -/
def flags : Frame → Nat
  | .headersF _ fl _ => fl
  | .continuationF _ fl _ => fl
  | .dataF _ fl _ => fl
  | .settingsF _ fl _ => fl
  | .windowUpdateF _ fl _ => fl

/-- The `header_block_fragment` attribute of HEADERS and CONTINUATION
frames (other frame kinds never reach the places that read it). -/
def header_block_fragment : Frame → String
  | .headersF _ _ hbf => hbf
  | .continuationF _ _ hbf => hbf
  | _ => ""

/-- The `payload` attribute of a DATA frame. -/
def payload : Frame → String
  | .dataF _ _ p => p
  | _ => ""

/-- `isinstance(frame, HeadersFrame)`. -/
def isHeaders : Frame → Bool
  | .headersF _ _ _ => true
  | _ => false

/-- `isinstance(frame, ContinuationFrame)`. -/
def isContinuation : Frame → Bool
  | .continuationF _ _ _ => true
  | _ => false

/-- `isinstance(frame, DataFrame)`. -/
def isData : Frame → Bool
  | .dataF _ _ _ => true
  | _ => false

/-- `isinstance(frame, SettingsFrame)`. -/
def isSettings : Frame → Bool
  | .settingsF _ _ _ => true
  | _ => false

/-- `isinstance(frame, WindowUpdateFrame)`. -/
def isWindowUpdate : Frame → Bool
  | .windowUpdateF _ _ _ => true
  | _ => false

end Frame

/-- Truthiness of `frame.flags & MASK` in Python: the bitwise AND is
non-zero. -/
def hasFlag (fl mask : Nat) : Bool := fl &&& mask != 0

/-- `SettingsFrame.SETTINGS.SETTINGS_ENABLE_PUSH` (0x2). -/
def SETTINGS_ENABLE_PUSH : Nat := 2
/-- `SettingsFrame.SETTINGS.SETTINGS_MAX_CONCURRENT_STREAMS` (0x3). -/
def SETTINGS_MAX_CONCURRENT_STREAMS : Nat := 3
/-- `SettingsFrame.SETTINGS.SETTINGS_INITIAL_WINDOW_SIZE` (0x4). -/
def SETTINGS_INITIAL_WINDOW_SIZE : Nat := 4

/-- `CLIENT_CONNECTION_PREFACE = "PRI * HTTP/2.0\r\n\r\nSM\r\n\r\n"`. -/
def CLIENT_CONNECTION_PREFACE : String := "PRI * HTTP/2.0\r\n\r\nSM\r\n\r\n"

/-- The SETTINGS frame built by `Http2ClientConnection.preface`
(stream 0, no flags, `MAX_CONCURRENT_STREAMS=100`,
`INITIAL_WINDOW_SIZE=2**31 - 1`). -/
def clientPrefaceSettingsFrame : Frame :=
  .settingsF 0 0
    [(SETTINGS_MAX_CONCURRENT_STREAMS, 100),
     (SETTINGS_INITIAL_WINDOW_SIZE, 2 ^ 31 - 1)]

/-- The WINDOW_UPDATE frame built by `Http2ClientConnection.preface`
(`stream_id=0`, `window_size_increment=2**31 - 2**16`). -/
def clientPrefaceWindowUpdateFrame : Frame :=
  .windowUpdateF 0 0 (2 ^ 31 - 2 ^ 16)

/-- `Http2ClientConnection.preface`.  `rfile` is the pending input of the
client transport.  `self.via.rfile.read(len(CLIENT_CONNECTION_PREFACE))`
is `rfile.take CLIENT_CONNECTION_PREFACE.length`; on a mismatch the code
raises `Http2Exception` before any `send_frame` call, so the error case
emits nothing; on a match it sends the SETTINGS frame and then the
WINDOW_UPDATE frame.  Returns (frames written, unread input). -/
def Http2ClientConnection.preface (rfile : List Char) :
    Except PyError (List Frame × List Char) :=
  let expected_client_preface := CLIENT_CONNECTION_PREFACE.toList
  let actual_client_preface := rfile.take CLIENT_CONNECTION_PREFACE.length
  if expected_client_preface ≠ actual_client_preface then
    .error (.http2Exception "Invalid Client preface")
  else
    .ok ([clientPrefaceSettingsFrame, clientPrefaceWindowUpdateFrame],
         rfile.drop CLIENT_CONNECTION_PREFACE.length)

/-- `Http2Connection._read_all_header_frames`.  `last` is the last frame
of the run accumulated so far (initially the HEADERS frame passed in);
`input` is the pending frame stream of this endpoint's transport
(`Frame.from_file(self.via.rfile)` reads its head).  While the last frame
lacks `END_HEADERS`, read the next frame; a frame that is not a
CONTINUATION frame or carries a different `stream_id` than the last frame
raises `Http2Exception`.  Returns (frames of the run, unread input). -/
def read_all_header_frames (last : Frame) (input : List Frame) :
    Except PyError (List Frame × List Frame) :=
  if hasFlag last.flags Frame.FLAG_END_HEADERS then
    .ok ([last], input)
  else
    match input with
    | [] => .error .transportClosed
    | f :: rest =>
      if f.isContinuation ∧ f.stream_id = last.stream_id then
        match read_all_header_frames f rest with
        | .ok (frames, rem) => .ok (last :: frames, rem)
        | .error e => .error e
      else
        .error (.http2Exception "Unexpected frame")

/-- `Http2Connection.read_headers`: reassemble the run, concatenate the
`header_block_fragment`s of all its frames in order, and decode the
concatenation with the endpoint's HPACK decoder (`decode`).  Returns
(frames of the run, the byte string given to the decoder, the decoded
header list, unread input). -/
def read_headers (decode : String → List (String × String))
    (headers_frame : Frame) (input : List Frame) :
    Except PyError (List Frame × String × List (String × String) × List Frame) :=
  match read_all_header_frames headers_frame input with
  | .ok (all_header_frames, rest) =>
    let header_block_fragment :=
      String.join (all_header_frames.map Frame.header_block_fragment)
    .ok (all_header_frames, header_block_fragment, decode header_block_fragment, rest)
  | .error e => .error e

/-- In `Http2Layer.__call__`, `source` is either `self.client_conn`
(an `Http2ClientConnection`) or `self.server_conn`
(an `Http2ServerConnection`). -/
inductive Endpoint where
  | client
  | server
deriving Repr, DecidableEq

/-- Runtime objects compared by `==` in `_process_data_frame`.  The
wrappers (`Http2ClientConnection`/`Http2ServerConnection` built in
`Http2Layer.__init__`) and the underlying connection objects reached
through `Http2Connection.__getattr__` delegation
(`self.client_conn.connection`) are four pairwise-distinct objects.
None of the classes involved overrides `__eq__`, so Python's `==`
between them is object identity, modelled by equality of this type's
constructors. -/
inductive PyObj where
  | http2ClientConnectionObj
  | http2ServerConnectionObj
  | clientConnectionObj
  | serverConnectionObj
deriving Repr, DecidableEq

/-- The object bound to `source` in `Http2Layer.__call__`: the endpoint
wrapper, not the underlying connection. -/
def Endpoint.sourceObj : Endpoint → PyObj
  | .client => .http2ClientConnectionObj
  | .server => .http2ServerConnectionObj

/-- The object `self.client_conn.connection` evaluates to inside
`Http2Layer._process_data_frame`: `self.client_conn` is the
`Http2ClientConnection` wrapper, whose `__getattr__` forwards the
`connection` attribute to the wrapped connection object. -/
def client_conn_connection : PyObj := .clientConnectionObj

/-- Python `==` on objects whose classes define no `__eq__`:
object identity. -/
def pyIs (a b : PyObj) : Bool := a = b

/-- Outbound effects of the layer: `send_frame` on an endpoint's
transport, and the `send_headers` / `send_data` endpoint operations
invoked by the stream worker (their splitting into wire frames is done
by the external `HTTP2Protocol` codec). -/
inductive Event where
  | sentFrame (ep : Endpoint) (f : Frame)
  | sentHeaders (ep : Endpoint) (headers : List (String × String))
      (stream_id : Nat) (end_stream : Bool)
  | sentData (ep : Endpoint) (payload : String) (stream_id : Nat)
      (end_stream : Bool)
deriving Repr, DecidableEq

/-- Per-stream state of a `Stream` object, restricted to what the dispatch
loop mutates.  In `Stream.__init__`, `a, b = socket.socketpair()`;
`into_client_conn = b` is the write-half whose bytes surface on `a`, the
read side of the stream's `client_conn` pseudo-connection (consumed by the
worker's request-body reader in `read_request`); `into_server_conn = a`
is the write-half whose bytes surface on `b`, read by the worker's
response-body reader in `read_response_body`.  `…_data` records the bytes
written with `sendall`; `…_shutdowns` counts `shutdown(socket.SHUT_WR)`
calls; the header queues record the `Queue.put` calls in order. -/
structure StreamState where
  into_client_data : String
  into_client_shutdowns : Nat
  into_server_data : String
  into_server_shutdowns : Nat
  client_headers : List (List (String × String))
  server_headers : List (List (String × String))
deriving Repr, DecidableEq

/-- A freshly constructed `Stream`: empty pipes, nothing shut down,
empty header queues. -/
def StreamState.new : StreamState :=
  ⟨"", 0, "", 0, [], []⟩

/-- `Http2Layer` state touched by the dispatch loop: the
`streams` map, as an association list keyed by `stream_id`. -/
structure LayerState where
  streams : List (Nat × StreamState)
deriving Repr, DecidableEq

/-- `self.streams[sid]` as an `Option` (first binding wins; keys are
unique because `_create_new_stream` only runs for absent keys). -/
def lookupStream (streams : List (Nat × StreamState)) (sid : Nat) :
    Option StreamState :=
  match streams with
  | [] => none
  | (k, s) :: rest => if k = sid then some s else lookupStream rest sid

/-- `sid in self.streams`. -/
def memStream (streams : List (Nat × StreamState)) (sid : Nat) : Bool :=
  (lookupStream streams sid).isSome

/-- `self.streams[sid] = s`: overwrite the binding if present, else add it. -/
def setStream (streams : List (Nat × StreamState)) (sid : Nat)
    (s : StreamState) : List (Nat × StreamState) :=
  match streams with
  | [] => [(sid, s)]
  | (k, s₀) :: rest =>
    if k = sid then (k, s) :: rest else (k, s₀) :: setStream rest sid s

/-- Dispatch condition `is_new_stream`: a HEADERS frame from the client
for a `stream_id` not in the streams map.  (`source == client` in the
source compares `source` with `self.client_conn`, the same object, so it
is plain endpoint identity.) -/
def is_new_stream (streams : List (Nat × StreamState)) (source : Endpoint)
    (frame : Frame) : Bool :=
  frame.isHeaders && source = .client && !memStream streams frame.stream_id

/-- Dispatch condition `is_server_headers`: a HEADERS frame from the
server for a known `stream_id`. -/
def is_server_headers (streams : List (Nat × StreamState)) (source : Endpoint)
    (frame : Frame) : Bool :=
  frame.isHeaders && source ≠ .client && memStream streams frame.stream_id

/-- Dispatch condition `is_data_frame`: a DATA frame for a known
`stream_id`. -/
def is_data_frame (streams : List (Nat × StreamState)) (frame : Frame) : Bool :=
  frame.isData && memStream streams frame.stream_id

/-- Dispatch condition `is_settings_frame`: a SETTINGS frame on stream 0. -/
def is_settings_frame (frame : Frame) : Bool :=
  frame.isSettings && frame.stream_id = 0

/-- `Http2Layer._process_window_update_frame`: `pass`. -/
def process_window_update_frame (st : LayerState) : LayerState × List Event :=
  (st, [])

/-- `Http2Layer._process_settings_frame`: an ACK is ignored; otherwise an
empty SETTINGS frame with the ACK flag (`SettingsFrame(flags=FLAG_ACK)`,
default `stream_id=0`, no settings) is sent back on the source endpoint.
The frame's `settings` payload is read by nothing. -/
def process_settings_frame (st : LayerState) (settings_frame : Frame)
    (source : Endpoint) : LayerState × List Event :=
  if hasFlag settings_frame.flags Frame.FLAG_ACK then
    (st, [])
  else
    (st, [.sentFrame source (.settingsF 0 Frame.FLAG_ACK [])])

/-- `Http2Layer._process_data_frame`.  The code picks
`target = stream.into_client_conn if source == self.client_conn.connection
else stream.into_server_conn`; that comparison is `pyIs` between the
endpoint wrapper bound to `source` and the delegated `connection`
attribute.  `target.sendall(payload)` appends to the target pipe; an
`END_STREAM` flag then shuts down the same target's write-half. -/
def process_data_frame (st : LayerState) (data_frame : Frame)
    (source : Endpoint) : Except PyError (LayerState × List Event) :=
  match lookupStream st.streams data_frame.stream_id with
  | none => .error (.keyError (toString data_frame.stream_id))
  | some stream =>
    let to_client := pyIs source.sourceObj client_conn_connection
    let stream :=
      if to_client then
        { stream with into_client_data := stream.into_client_data ++ data_frame.payload }
      else
        { stream with into_server_data := stream.into_server_data ++ data_frame.payload }
    let stream :=
      if hasFlag data_frame.flags Frame.FLAG_END_STREAM then
        if to_client then
          { stream with into_client_shutdowns := stream.into_client_shutdowns + 1 }
        else
          { stream with into_server_shutdowns := stream.into_server_shutdowns + 1 }
      else
        stream
    .ok ({ streams := setStream st.streams data_frame.stream_id stream }, [])

/-- `Http2Layer._create_new_stream`: reassemble the header run on the
client endpoint, construct a fresh `Stream`, insert it into the streams
map, start the worker (not part of this state), put the decoded headers
on `client_headers`, and if the run's final frame has `END_STREAM` shut
down `into_client_conn`.  Returns the new state, emitted events and the
unread frames of the client transport. -/
def create_new_stream (decode : String → List (String × String))
    (st : LayerState) (headers_frame : Frame) (input : List Frame) :
    Except PyError (LayerState × List Event × List Frame) :=
  match read_headers decode headers_frame input with
  | .error e => .error e
  | .ok (header_frames, _, headers, rest) =>
    let stream := StreamState.new
    let stream := { stream with client_headers := stream.client_headers ++ [headers] }
    let stream :=
      if hasFlag (header_frames.getLastD default).flags Frame.FLAG_END_STREAM then
        { stream with into_client_shutdowns := stream.into_client_shutdowns + 1 }
      else
        stream
    .ok ({ streams := setStream st.streams headers_frame.stream_id stream }, [], rest)

/-- `Http2Layer._process_server_headers`: reassemble the header run on the
server endpoint, put the decoded headers on the stream's `server_headers`
queue, and if the run's final frame has `END_STREAM` shut down
`into_server_conn`. -/
def process_server_headers (decode : String → List (String × String))
    (st : LayerState) (headers_frame : Frame) (input : List Frame) :
    Except PyError (LayerState × List Event × List Frame) :=
  match read_headers decode headers_frame input with
  | .error e => .error e
  | .ok (header_frames, _, headers, rest) =>
    match lookupStream st.streams headers_frame.stream_id with
    | none => .error (.keyError (toString headers_frame.stream_id))
    | some stream =>
      let stream := { stream with server_headers := stream.server_headers ++ [headers] }
      let stream :=
        if hasFlag (header_frames.getLastD default).flags Frame.FLAG_END_STREAM then
          { stream with into_server_shutdowns := stream.into_server_shutdowns + 1 }
        else
          stream
      .ok ({ streams := setStream st.streams headers_frame.stream_id stream }, [], rest)

/-- One iteration of the dispatch loop of `Http2Layer.__call__` after a
frame has been read from `source`'s transport: classify the frame with
the five conditions in the source's order (first match wins) and run the
matching handler; a frame matching none raises
`Http2Exception("Unexpected Frame")`.  `input` is the rest of `source`'s
pending frame stream (consumed further only by header reassembly);
the result carries its unread remainder. -/
def process_frame (decode : String → List (String × String))
    (st : LayerState) (source : Endpoint) (frame : Frame)
    (input : List Frame) :
    Except PyError (LayerState × List Event × List Frame) :=
  if is_new_stream st.streams source frame then
    create_new_stream decode st frame input
  else if is_server_headers st.streams source frame then
    process_server_headers decode st frame input
  else if is_data_frame st.streams frame then
    match process_data_frame st frame source with
    | .ok (st', evs) => .ok (st', evs, input)
    | .error e => .error e
  else if is_settings_frame frame then
    let (st', evs) := process_settings_frame st frame source
    .ok (st', evs, input)
  else if frame.isWindowUpdate then
    let (st', evs) := process_window_update_frame st
    .ok (st', evs, input)
  else
    .error (.http2Exception "Unexpected Frame")

/-- `headers[name]` on a `netlib` `Headers` object, as used by the worker
for the fixed pseudo-header names: the value of the first matching entry,
`none` standing for a raised `KeyError`. -/
def hlookup (headers : List (String × String)) (name : String) :
    Option String :=
  match headers with
  | [] => none
  | (k, v) :: rest => if k = name then some v else hlookup rest name

/-- Digits of a decimal literal, Python-style: `none` unless the string is
non-empty and all characters are ASCII digits. -/
def decDigits : List Char → Option Nat
  | [] => none
  | [c] => if c.isDigit then some (c.toNat - 48) else none
  | c :: rest =>
    match decDigits rest with
    | some n => if c.isDigit then some ((c.toNat - 48) * 10 ^ rest.length + n) else none
    | none => none

/-- Python's `int(s)` on a string: optional surrounding whitespace, an
optional sign, then at least one decimal digit; anything else raises
`ValueError` (`none` here). -/
def pyInt (s : String) : Option Int :=
  let t := ((s.toList.dropWhile Char.isWhitespace).reverse.dropWhile
    Char.isWhitespace).reverse
  match t with
  | '-' :: ds => (decDigits ds).map (fun n => -(n : Int))
  | '+' :: ds => (decDigits ds).map (fun n => (n : Int))
  | ds => (decDigits ds).map (fun n => (n : Int))

/-- The `libmproxy.models.HTTPRequest` fields populated by
`Stream.read_request` (`none` standing for Python `None`). -/
structure HTTPRequest where
  form_in : String
  method : String
  scheme : String
  host : Option String
  port : Option Nat
  path : String
  httpversion : Nat × Nat
  headers : List (String × String)
  body : String
deriving Repr, DecidableEq

/-- The `libmproxy.models.HTTPResponse` fields populated by
`Stream.read_response_headers`. -/
structure HTTPResponse where
  httpversion : Nat × Nat
  status_code : Int
  msg : String
  headers : List (String × String)
  body : Option String
deriving Repr, DecidableEq

/-- `Stream.read_request`, after the blocking
`self.client_headers.get()` has yielded `headers`.  The `try` block looks
up `:method` first (a miss raises `KeyError`, caught and converted to
`Http2Exception("Malformed HTTP2 request")`); a `CONNECT` method raises
`NotImplementedError`, which the `except KeyError` clause does not catch;
then `:scheme` and `:path` are looked up the same way.  The request body
is read from the client pseudo-connection by the external HTTP/1 body
parser; its result is the `body` argument.  On success the code builds
`HTTPRequest("relative", method, scheme, host, port, path, (2, 0),
headers, body)` with `host = port = None`. -/
def Stream.read_request (headers : List (String × String)) (body : String) :
    Except PyError HTTPRequest :=
  match hlookup headers ":method" with
  | none => .error (.http2Exception "Malformed HTTP2 request")
  | some method =>
    if method = "CONNECT" then
      .error (.notImplementedError "HTTP2 CONNECT not supported")
    else
      match hlookup headers ":scheme" with
      | none => .error (.http2Exception "Malformed HTTP2 request")
      | some scheme =>
        match hlookup headers ":path" with
        | none => .error (.http2Exception "Malformed HTTP2 request")
        | some path =>
          .ok ⟨"relative", method, scheme, none, none, path, (2, 0), headers, body⟩

/-- `Stream.send_request`: `send_headers(request.headers, stream_id,
end_stream = not request.body)` on the server endpoint, then, if the body
is truthy (non-empty), `send_data(request.body, stream_id,
end_stream=True)`. -/
def Stream.send_request (request : HTTPRequest) (stream_id : Nat) :
    List Event :=
  [Event.sentHeaders .server request.headers stream_id (request.body = "")] ++
    (if request.body = "" then []
     else [Event.sentData .server request.body stream_id true])

/-- Truthiness of `response.body` in Python: `None` and the empty byte
string are falsy. -/
def bodyTruthy : Option String → Bool
  | none => false
  | some s => s ≠ ""

/-- `Stream.read_response_headers`, after the blocking
`self.server_headers.get()` has yielded `headers`.  The `try` block
evaluates `int(headers[':status'])`: a missing `:status` raises
`KeyError`, caught and converted to
`Http2Exception("Malformed HTTP2 response")`; a present but non-integer
value makes `int()` raise `ValueError`, which the `except KeyError`
clause does not catch.  On success the code builds
`HTTPResponse((2, 0), status, "", headers, None)`. -/
def Stream.read_response_headers (headers : List (String × String)) :
    Except PyError HTTPResponse :=
  match hlookup headers ":status" with
  | none => .error (.http2Exception "Malformed HTTP2 response")
  | some v =>
    match pyInt v with
    | none => .error (.valueError "invalid literal for int() with base 10")
    | some status => .ok ⟨(2, 0), status, "", headers, none⟩

/-- `Stream.send_response_headers`: `send_headers(response.headers,
stream_id, end_stream = not response.body)` on the client endpoint. -/
def Stream.send_response_headers (response : HTTPResponse)
    (stream_id : Nat) : List Event :=
  [Event.sentHeaders .client response.headers stream_id
    (!bodyTruthy response.body)]

/-- `Stream.send_response_body`: if the body is truthy,
`send_data(response.body, stream_id, end_stream=True)` on the client
endpoint. -/
def Stream.send_response_body (response : HTTPResponse)
    (stream_id : Nat) : List Event :=
  if bodyTruthy response.body then
    [Event.sentData .client ((response.body).getD "") stream_id true]
  else
    []

/-- Decidable equality for `Except`, so that concrete runs of the
embedded functions can be checked by `decide`. -/
instance {ε α : Type} [DecidableEq ε] [DecidableEq α] :
    DecidableEq (Except ε α) := fun x y =>
  match x, y with
  | .error a, .error b =>
    if h : a = b then .isTrue (by rw [h])
    else .isFalse (fun hc => h (Except.error.inj hc))
  | .error _, .ok _ => .isFalse (fun hc => Except.noConfusion hc)
  | .ok _, .error _ => .isFalse (fun hc => Except.noConfusion hc)
  | .ok a, .ok b =>
    if h : a = b then .isTrue (by rw [h])
    else .isFalse (fun hc => h (Except.ok.inj hc))

/-!
## Theorems
-/

/-- Characterization of a successful `_read_all_header_frames` run: the
run starts with the frame passed in, every later frame is a CONTINUATION
frame for the same `stream_id`, every frame before the last lacks
`END_HEADERS`, and the last frame has `END_HEADERS`. -/
theorem read_all_header_frames_run (input : List Frame) :
    ∀ last run rest, read_all_header_frames last input = .ok (run, rest) →
      run.head? = some last ∧
      (∀ f ∈ run.tail, f.isContinuation = true ∧ f.stream_id = last.stream_id) ∧
      (∀ f ∈ run.dropLast, hasFlag f.flags Frame.FLAG_END_HEADERS = false) ∧
      hasFlag (run.getLastD default).flags Frame.FLAG_END_HEADERS = true := by
  induction input with
  | nil =>
    intro last run rest h
    simp only [read_all_header_frames] at h
    split at h
    · rename_i hEH
      simp only [Except.ok.injEq, Prod.mk.injEq] at h
      obtain ⟨rfl, rfl⟩ := h
      refine ⟨rfl, by simp, by simp, by simpa using hEH⟩
    · exact Except.noConfusion h
  | cons f rest' ih =>
    intro last run rest h
    simp only [read_all_header_frames] at h
    split at h
    · rename_i hEH
      simp only [Except.ok.injEq, Prod.mk.injEq] at h
      obtain ⟨rfl, rfl⟩ := h
      refine ⟨rfl, by simp, by simp, by simpa using hEH⟩
    · rename_i hEH
      split at h
      · rename_i hc
        have hc' : f.isContinuation = true ∧ f.stream_id = last.stream_id := by
          simpa using hc
        cases hrec : read_all_header_frames f rest' with
        | error e =>
          rw [hrec] at h
          exact Except.noConfusion h
        | ok p =>
          obtain ⟨frames, rem⟩ := p
          rw [hrec] at h
          simp only [Except.ok.injEq, Prod.mk.injEq] at h
          obtain ⟨rfl, rfl⟩ := h
          obtain ⟨ihHead, ihTail, ihDrop, ihLast⟩ := ih f frames rem hrec
          obtain ⟨t, rfl⟩ : ∃ t, frames = f :: t := by
            cases frames with
            | nil => exact absurd ihHead (by simp)
            | cons a t =>
              simp only [List.head?_cons, Option.some.injEq] at ihHead
              exact ⟨t, by rw [ihHead]⟩
          refine ⟨rfl, ?_, ?_, ?_⟩
          · intro g hg
            simp only [List.tail_cons] at hg
            rcases List.mem_cons.mp hg with rfl | hgt
            · exact hc'
            · refine ⟨(ihTail g (by simpa using hgt)).1, ?_⟩
              exact (ihTail g (by simpa using hgt)).2.trans hc'.2
          · intro g hg
            have hg' : g ∈ last :: (f :: t).dropLast := hg
            rcases List.mem_cons.mp hg' with rfl | hgd
            · simpa using hEH
            · exact ihDrop g hgd
          · simpa only [List.getLastD_cons] using ihLast
      · exact Except.noConfusion h

/-- C3: for every header run started by a HEADERS frame, reassembly reads
further frames while the last frame of the run lacks `END_HEADERS`; a read
frame that is not a CONTINUATION frame or carries a different `stream_id`
than the run raises the protocol-violation `Http2Exception`; on success
the byte string given to the HPACK decoder is the in-order concatenation
of the header-block fragments of all frames of the run. -/
theorem read_headers_reassembly (decode : String → List (String × String))
    (first : Frame) (input : List Frame) :
    (∀ f rest, hasFlag first.flags Frame.FLAG_END_HEADERS = false →
      input = f :: rest →
      f.isContinuation = false ∨ f.stream_id ≠ first.stream_id →
      read_headers decode first input =
        .error (.http2Exception "Unexpected frame")) ∧
    (∀ run rest, read_all_header_frames first input = .ok (run, rest) →
      run.head? = some first ∧
      (∀ f ∈ run.tail, f.isContinuation = true ∧ f.stream_id = first.stream_id) ∧
      hasFlag (run.getLastD default).flags Frame.FLAG_END_HEADERS = true ∧
      read_headers decode first input =
        .ok (run, String.join (run.map Frame.header_block_fragment),
             decode (String.join (run.map Frame.header_block_fragment)),
             rest)) := by
  constructor
  · intro f rest hEH hin hbad
    subst hin
    have hcond : ¬(f.isContinuation = true ∧ f.stream_id = first.stream_id) := by
      rcases hbad with hb | hb
      · simp [hb]
      · simp [hb]
    simp only [read_headers, read_all_header_frames, hEH]
    simp [hcond]
  · intro run rest h
    obtain ⟨hHead, hTail, _, hLast⟩ := read_all_header_frames_run input first run rest h
    exact ⟨hHead, hTail, hLast, by simp only [read_headers, h]⟩

/-- Witness for `read_headers_reassembly`: a concrete
HEADERS+CONTINUATION run whose fragments are concatenated in order, and a
concrete DATA frame interrupting a run, which raises the
protocol-violation error. -/
theorem read_headers_reassembly_witness :
    read_headers (fun s => [("decoded", s)]) (.headersF 1 0 "ab")
        [.continuationF 1 4 "cd"] =
      .ok ([.headersF 1 0 "ab", .continuationF 1 4 "cd"], "abcd",
           [("decoded", "abcd")], []) ∧
    read_headers (fun s => [("decoded", s)]) (.headersF 1 0 "ab")
        [.dataF 1 0 "x"] =
      .error (.http2Exception "Unexpected frame") := by
  constructor
  · have h := (read_headers_reassembly (fun s => [("decoded", s)])
      (.headersF 1 0 "ab") [.continuationF 1 4 "cd"]).2
      [.headersF 1 0 "ab", .continuationF 1 4 "cd"] [] (by decide)
    simpa using h.2.2.2
  · exact (read_headers_reassembly (fun s => [("decoded", s)])
      (.headersF 1 0 "ab") [.dataF 1 0 "x"]).1 (.dataF 1 0 "x") []
      (by decide) rfl (by decide)

/-- C2: the client-facing preface reads exactly `len(PREFACE)` bytes; on
a mismatch it raises the bad-preface `Http2Exception` and writes nothing;
on a match it writes exactly one SETTINGS frame carrying
`MAX_CONCURRENT_STREAMS=100` and `INITIAL_WINDOW_SIZE=2^31-1`, followed by
one WINDOW_UPDATE frame on stream 0 with increment `2^31-2^16`. -/
theorem client_preface_spec (rfile : List Char) :
    (rfile.take CLIENT_CONNECTION_PREFACE.length =
        CLIENT_CONNECTION_PREFACE.toList →
      Http2ClientConnection.preface rfile =
        .ok ([.settingsF 0 0
                [(SETTINGS_MAX_CONCURRENT_STREAMS, 100),
                 (SETTINGS_INITIAL_WINDOW_SIZE, 2 ^ 31 - 1)],
              .windowUpdateF 0 0 (2 ^ 31 - 2 ^ 16)],
             rfile.drop CLIENT_CONNECTION_PREFACE.length)) ∧
    (rfile.take CLIENT_CONNECTION_PREFACE.length ≠
        CLIENT_CONNECTION_PREFACE.toList →
      Http2ClientConnection.preface rfile =
        .error (.http2Exception "Invalid Client preface")) := by
  constructor
  · intro h
    simp only [Http2ClientConnection.preface, h, ne_eq, not_true_eq_false,
      if_false, ite_false]
    rfl
  · intro h
    simp only [Http2ClientConnection.preface, ne_eq]
    rw [if_pos (fun hc => h hc.symm)]

/-- Witness for `client_preface_spec`: the literal preface followed by
one extra byte is accepted with exactly the SETTINGS and WINDOW_UPDATE
frames emitted and the extra byte unread; a preface whose third byte is
wrong (`PRX…`) is rejected. -/
theorem client_preface_spec_witness :
    Http2ClientConnection.preface (CLIENT_CONNECTION_PREFACE.toList ++ ['x']) =
      .ok ([.settingsF 0 0
              [(SETTINGS_MAX_CONCURRENT_STREAMS, 100),
               (SETTINGS_INITIAL_WINDOW_SIZE, 2 ^ 31 - 1)],
            .windowUpdateF 0 0 (2 ^ 31 - 2 ^ 16)],
           (CLIENT_CONNECTION_PREFACE.toList ++ ['x']).drop
             CLIENT_CONNECTION_PREFACE.length) ∧
    Http2ClientConnection.preface
        ("PRX * HTTP/2.0\r\n\r\nSM\r\n\r\n".toList) =
      .error (.http2Exception "Invalid Client preface") :=
  ⟨(client_preface_spec _).1 (by decide),
   (client_preface_spec _).2 (by decide)⟩

/-- C4: a SETTINGS frame on stream 0 with the ACK flag is ignored (no
event, state unchanged); without the ACK flag, exactly one empty SETTINGS
frame with the ACK flag is sent back on the source endpoint, and the
layer state — in particular the values carried in the frame's `settings`
payload, which the handler never reads — is unchanged. -/
theorem settings_frame_spec (decode : String → List (String × String))
    (st : LayerState) (source : Endpoint) (fl : Nat)
    (sets : List (Nat × Nat)) (input : List Frame) :
    (hasFlag fl Frame.FLAG_ACK = true →
      process_frame decode st source (.settingsF 0 fl sets) input =
        .ok (st, [], input)) ∧
    (hasFlag fl Frame.FLAG_ACK = false →
      process_frame decode st source (.settingsF 0 fl sets) input =
        .ok (st, [.sentFrame source (.settingsF 0 Frame.FLAG_ACK [])],
             input)) := by
  constructor <;> intro h <;>
    simp [process_frame, is_new_stream, is_server_headers, is_data_frame,
      is_settings_frame, process_settings_frame, Frame.isHeaders,
      Frame.isData, Frame.isSettings, Frame.stream_id, Frame.flags, h]

/-- Witness for `settings_frame_spec`: a concrete ACK SETTINGS frame is
ignored; a concrete non-ACK SETTINGS frame (carrying a value for
`MAX_CONCURRENT_STREAMS`) yields exactly the empty ACK SETTINGS frame on
the same endpoint with the state unchanged. -/
theorem settings_frame_spec_witness :
    process_frame (fun _ => []) ⟨[]⟩ .server (.settingsF 0 1 []) [] =
      .ok (⟨[]⟩, [], []) ∧
    process_frame (fun _ => []) ⟨[]⟩ .server
        (.settingsF 0 0 [(SETTINGS_MAX_CONCURRENT_STREAMS, 7)]) [] =
      .ok (⟨[]⟩, [.sentFrame .server (.settingsF 0 Frame.FLAG_ACK [])],
           []) :=
  ⟨(settings_frame_spec (fun _ => []) ⟨[]⟩ .server 1 [] []).1 (by decide),
   (settings_frame_spec (fun _ => []) ⟨[]⟩ .server 0
      [(SETTINGS_MAX_CONCURRENT_STREAMS, 7)] []).2 (by decide)⟩

/-- C5 as stated is false: for the header list containing only
`:method: CONNECT`, both `:scheme` and `:path` are absent, yet
`read_request` raises `NotImplementedError` (the CONNECT refusal), not
the `Http2Exception("Malformed HTTP2 request")` the claim demands for a
missing pseudo-header — the CONNECT check runs before the `:scheme` and
`:path` lookups. -/
theorem read_request_connect_counterexample :
    hlookup [(":method", "CONNECT")] ":scheme" = none ∧
    hlookup [(":method", "CONNECT")] ":path" = none ∧
    Stream.read_request [(":method", "CONNECT")] "" =
      .error (.notImplementedError "HTTP2 CONNECT not supported") ∧
    Stream.read_request [(":method", "CONNECT")] "" ≠
      .error (.http2Exception "Malformed HTTP2 request") := by
  refine ⟨rfl, rfl, rfl, by decide⟩

/-- C5, amended: `read_request` raises the malformed-request
`Http2Exception` when `:method` is absent, and when `:method` is present,
differs from `CONNECT`, and `:scheme` or `:path` is absent; when
`:method` equals `CONNECT` it raises `NotImplementedError` (before the
`:scheme`/`:path` lookups); every accepted request has form `"relative"`,
`host = None`, `port = None`, version `(2, 0)`, the decoded header list,
and the body handed over by the HTTP/1 body reader. -/
theorem read_request_spec (headers : List (String × String))
    (body : String) :
    (hlookup headers ":method" = none →
      Stream.read_request headers body =
        .error (.http2Exception "Malformed HTTP2 request")) ∧
    (hlookup headers ":method" = some "CONNECT" →
      Stream.read_request headers body =
        .error (.notImplementedError "HTTP2 CONNECT not supported")) ∧
    (∀ m, hlookup headers ":method" = some m → m ≠ "CONNECT" →
      hlookup headers ":scheme" = none ∨ hlookup headers ":path" = none →
      Stream.read_request headers body =
        .error (.http2Exception "Malformed HTTP2 request")) ∧
    (∀ req, Stream.read_request headers body = .ok req →
      req.form_in = "relative" ∧ req.host = none ∧ req.port = none ∧
      req.httpversion = (2, 0) ∧ req.headers = headers ∧
      req.body = body) := by
  refine ⟨fun h => ?_, fun h => ?_, fun m hm hne hmiss => ?_, fun req h => ?_⟩
  · simp [Stream.read_request, h]
  · simp [Stream.read_request, h]
  · rcases hmiss with hs | hp
    · simp [Stream.read_request, hm, hne, hs]
    · rcases hsc : hlookup headers ":scheme" with _ | v
      · simp [Stream.read_request, hm, hne, hsc]
      · simp [Stream.read_request, hm, hne, hsc, hp]
  · rcases hm : hlookup headers ":method" with _ | m <;>
      simp only [Stream.read_request, hm] at h
    · exact Except.noConfusion h
    · by_cases hc : m = "CONNECT"
      · simp only [hc, if_true] at h
        exact Except.noConfusion h
      · rcases hs : hlookup headers ":scheme" with _ | s <;>
          simp only [hc, if_false, ite_false, hs] at h
        · exact Except.noConfusion h
        · rcases hp : hlookup headers ":path" with _ | p <;>
            simp only [hp] at h
          · exact Except.noConfusion h
          · obtain rfl := Except.ok.inj h
            exact ⟨rfl, rfl, rfl, rfl, rfl, rfl⟩

/-- Witness for `read_request_spec`: each branch at a concrete header
list — empty headers, a CONNECT request, a GET request missing `:path`,
and an accepted GET request. -/
theorem read_request_spec_witness :
    Stream.read_request [] "" =
      .error (.http2Exception "Malformed HTTP2 request") ∧
    Stream.read_request [(":method", "CONNECT")] "" =
      .error (.notImplementedError "HTTP2 CONNECT not supported") ∧
    Stream.read_request [(":method", "GET"), (":scheme", "https")] "" =
      .error (.http2Exception "Malformed HTTP2 request") ∧
    (⟨"relative", "GET", "https", none, none, "/", (2, 0),
       [(":method", "GET"), (":scheme", "https"), (":path", "/")],
       "hi"⟩ : HTTPRequest).form_in = "relative" :=
  ⟨(read_request_spec [] "").1 rfl,
   (read_request_spec [(":method", "CONNECT")] "").2.1 rfl,
   (read_request_spec [(":method", "GET"), (":scheme", "https")] "").2.2.1
     "GET" rfl (by decide) (.inr rfl),
   ((read_request_spec
       [(":method", "GET"), (":scheme", "https"), (":path", "/")]
       "hi").2.2.2 _ rfl).1⟩

/-- C6 is the intent but not the code: a present, non-integer `:status`
makes `int()` raise `ValueError`, which the `except KeyError` clause does
not catch, so no `Http2Exception("Malformed HTTP2 response")` is raised;
only the absent-`:status` case produces the malformed-response error.
A well-formed `:status` yields the response object the claim describes
(version `(2, 0)`, parsed status, empty reason, headers, no body). -/
theorem read_response_headers_value_error :
    hlookup [(":status", "abc")] ":status" = some "abc" ∧
    Stream.read_response_headers [(":status", "abc")] =
      .error (.valueError "invalid literal for int() with base 10") ∧
    Stream.read_response_headers [(":status", "abc")] ≠
      .error (.http2Exception "Malformed HTTP2 response") ∧
    Stream.read_response_headers [] =
      .error (.http2Exception "Malformed HTTP2 response") ∧
    Stream.read_response_headers [(":status", "200")] =
      .ok ⟨(2, 0), 200, "", [(":status", "200")], none⟩ := by
  refine ⟨rfl, by decide, by decide, rfl, by decide⟩

/-- C7: `send_request` emits the request headers on the server endpoint
with `end_stream` set exactly when the body is empty, followed by one
`send_data` call with `end_stream=True` exactly when the body is
non-empty; `send_response_headers` and `send_response_body` do the same
on the client endpoint, where an empty body is `None` or the empty byte
string. -/
theorem send_request_response_spec (request : HTTPRequest)
    (response : HTTPResponse) (stream_id : Nat) :
    Stream.send_request request stream_id =
      Event.sentHeaders .server request.headers stream_id
          (decide (request.body = "")) ::
        (if request.body = "" then []
         else [Event.sentData .server request.body stream_id true]) ∧
    Stream.send_response_headers response stream_id =
      [Event.sentHeaders .client response.headers stream_id
        (decide (response.body = none ∨ response.body = some ""))] ∧
    Stream.send_response_body response stream_id =
      (if response.body = none ∨ response.body = some "" then []
       else [Event.sentData .client (response.body.getD "") stream_id
         true]) := by
  have hb : (!bodyTruthy response.body) =
      decide (response.body = none ∨ response.body = some "") := by
    rcases response.body with _ | s
    · decide
    · by_cases hs : s = "" <;> simp [bodyTruthy, hs]
  refine ⟨?_, ?_, ?_⟩
  · by_cases h : request.body = "" <;>
      simp [Stream.send_request, h]
  · simp [Stream.send_response_headers, hb]
  · rcases hbody : response.body with _ | s
    · simp [Stream.send_response_body, bodyTruthy, hbody]
    · by_cases hs : s = "" <;>
        simp [Stream.send_response_body, bodyTruthy, hbody, hs]

/-- C1 is the intent but not the code: in `_process_data_frame` the test
`source == self.client_conn.connection` compares the endpoint wrapper
bound to `source` with the underlying connection object reached through
`__getattr__` delegation; neither class overrides `__eq__`, so the test
is object identity between distinct objects and is false for both
endpoints.  A DATA frame read from the client endpoint for a known
stream is therefore written to `into_server_conn` — the write-half of the
server→client pipe, read by the worker's response-body reader — and the
client→server pipe receives nothing. -/
theorem client_data_frame_misrouted :
    pyIs Endpoint.client.sourceObj client_conn_connection = false ∧
    pyIs Endpoint.server.sourceObj client_conn_connection = false ∧
    process_frame (fun _ => []) ⟨[(1, StreamState.new)]⟩ .client
        (.dataF 1 0 "A") [] =
      .ok (⟨[(1, ⟨"", 0, "A", 0, [], []⟩)]⟩, [], []) ∧
    process_frame (fun _ => []) ⟨[(3, StreamState.new)]⟩ .server
        (.dataF 3 0 "B") [] =
      .ok (⟨[(3, ⟨"", 0, "B", 0, [], []⟩)]⟩, [], []) := by
  refine ⟨rfl, rfl, by decide, by decide⟩

/-- C8 is the intent but not the code for the DATA direction: a
client-origin DATA frame with `END_STREAM` shuts down
`into_server_conn` — the write-half of the server→client pipe — instead
of the client→server pipe, because the same always-false identity
comparison picks the server-side target; the header-run part of the
claim does hold: a client HEADERS run whose final frame carries
`END_STREAM` shuts down the client→server write-half exactly once, with
no DATA bytes in the pipe (a zero-byte request body followed by
end-of-stream). -/
theorem client_end_stream_shuts_wrong_pipe :
    process_frame (fun _ => []) ⟨[(1, StreamState.new)]⟩ .client
        (.dataF 1 Frame.FLAG_END_STREAM "A2") [] =
      .ok (⟨[(1, ⟨"", 0, "A2", 1, [], []⟩)]⟩, [], []) ∧
    process_frame (fun _ => []) ⟨[]⟩ .client (.headersF 1 5 "") [] =
      .ok (⟨[(1, ⟨"", 1, "", 0, [[]], []⟩)]⟩, [], []) := by
  refine ⟨by decide, by decide⟩

/-- C9: the dispatch loop ignores every WINDOW_UPDATE frame — any
`stream_id`, any flags — leaving the state unchanged and sending
nothing; a frame matching none of the five dispatch conditions raises
`Http2Exception("Unexpected Frame")`. -/
theorem dispatch_fallthrough_spec
    (decode : String → List (String × String)) (st : LayerState)
    (source : Endpoint) (input : List Frame) :
    (∀ sid fl inc,
      process_frame decode st source (.windowUpdateF sid fl inc) input =
        .ok (st, [], input)) ∧
    (∀ frame,
      is_new_stream st.streams source frame = false →
      is_server_headers st.streams source frame = false →
      is_data_frame st.streams frame = false →
      is_settings_frame frame = false →
      frame.isWindowUpdate = false →
      process_frame decode st source frame input =
        .error (.http2Exception "Unexpected Frame")) := by
  constructor
  · intro sid fl inc
    simp [process_frame, is_new_stream, is_server_headers, is_data_frame,
      is_settings_frame, process_window_update_frame, Frame.isHeaders,
      Frame.isData, Frame.isSettings, Frame.isWindowUpdate]
  · intro frame h1 h2 h3 h4 h5
    simp [process_frame, h1, h2, h3, h4, h5]

/-- Witness for `dispatch_fallthrough_spec`: a concrete WINDOW_UPDATE on
stream 7 is ignored; a SETTINGS frame with `stream_id = 5` (matching no
dispatch condition) raises the unexpected-frame error. -/
theorem dispatch_fallthrough_spec_witness :
    process_frame (fun _ => []) ⟨[]⟩ .client (.windowUpdateF 7 0 100) [] =
      .ok (⟨[]⟩, [], []) ∧
    process_frame (fun _ => []) ⟨[]⟩ .client (.settingsF 5 0 []) [] =
      .error (.http2Exception "Unexpected Frame") :=
  ⟨(dispatch_fallthrough_spec (fun _ => []) ⟨[]⟩ .client []).1 7 0 100,
   (dispatch_fallthrough_spec (fun _ => []) ⟨[]⟩ .client []).2
     (.settingsF 5 0 []) (by decide) (by decide) (by decide) (by decide)
     (by decide)⟩

/-- C10: pseudo-headers are never stripped: an accepted request keeps its
full decoded header list — `:method`, `:scheme` and `:path` entries
included — and `send_request` forwards exactly that header list to the
server endpoint; an accepted response keeps `:status` in its header
list. -/
theorem pseudo_headers_not_stripped (headers hdrs2 : List (String × String))
    (body : String) (stream_id : Nat) :
    (∀ req, Stream.read_request headers body = .ok req →
      req.headers = headers ∧
      (hlookup req.headers ":method").isSome ∧
      (hlookup req.headers ":scheme").isSome ∧
      (hlookup req.headers ":path").isSome ∧
      (Stream.send_request req stream_id).head? =
        some (.sentHeaders .server headers stream_id
          (decide (req.body = "")))) ∧
    (∀ resp, Stream.read_response_headers hdrs2 = .ok resp →
      resp.headers = hdrs2 ∧ (hlookup resp.headers ":status").isSome) := by
  constructor
  · intro req h
    rcases hm : hlookup headers ":method" with _ | m <;>
      simp only [Stream.read_request, hm] at h
    · exact Except.noConfusion h
    · by_cases hc : m = "CONNECT"
      · simp only [hc, if_true] at h
        exact Except.noConfusion h
      · rcases hs : hlookup headers ":scheme" with _ | s <;>
          simp only [hc, if_false, ite_false, hs] at h
        · exact Except.noConfusion h
        · rcases hp : hlookup headers ":path" with _ | p <;>
            simp only [hp] at h
          · exact Except.noConfusion h
          · obtain rfl := Except.ok.inj h
            exact ⟨rfl, by simp [hm], by simp [hs], by simp [hp],
              by simp [Stream.send_request]⟩
  · intro resp h
    rcases hst : hlookup hdrs2 ":status" with _ | v <;>
      simp only [Stream.read_response_headers, hst] at h
    · exact Except.noConfusion h
    · rcases hint : pyInt v with _ | n <;> simp only [hint] at h
      · exact Except.noConfusion h
      · obtain rfl := Except.ok.inj h
        exact ⟨rfl, by simp [hst]⟩

/-- Witness for `pseudo_headers_not_stripped`: a concrete accepted GET
request keeps its three pseudo-headers and forwards its header list; a
concrete accepted response keeps `:status`. -/
theorem pseudo_headers_not_stripped_witness :
    (hlookup [(":method", "GET"), (":scheme", "https"), (":path", "/")]
      ":method").isSome ∧
    (hlookup [(":status", "200")] ":status").isSome :=
  ⟨((pseudo_headers_not_stripped
      [(":method", "GET"), (":scheme", "https"), (":path", "/")]
      [(":status", "200")] "" 1).1
      ⟨"relative", "GET", "https", none, none, "/", (2, 0),
       [(":method", "GET"), (":scheme", "https"), (":path", "/")], ""⟩
      (by decide)).2.1,
   ((pseudo_headers_not_stripped
      [(":method", "GET"), (":scheme", "https"), (":path", "/")]
      [(":status", "200")] "" 1).2
      ⟨(2, 0), 200, "", [(":status", "200")], none⟩ (by decide)).2⟩

end Http2Proxy
